import Mathlib

/-!
Soundboard GUI: configuration parser, grid sizing and key mapping.

A shallow embedding of the pure parts of `src/soundboardgui.c`:

* `parse_config_line` (one `id|filename|keybind|description` line),
* `calculate_grid_columns` (column count from window width and sound count),
* `gdk_key_to_string` (key symbol to the token passed to `bind`).

C strings.

A `char *` is modelled by the list of characters stored from the pointer on.
The C string it denotes is the part before the first NUL (or the whole list
when it holds no NUL: the terminator is implicit at the end of the list).
One `Char` stands for one `char`.

C integers.

An `int` is modelled by an `Int`; arithmetic that can leave the 32-bit range is
wrapped explicitly with `wrap_int`.
-/

namespace Soundboard

/-! ## C library functions used by the source -/

/-- The string terminator. -/
def NUL : Char := '\x00'

/-- Largest `int`. -/
def INT_MAX : Int := 2147483647

/-- Smallest `int`. -/
def INT_MIN : Int := -2147483648

/-- Two's complement wrap of a mathematical integer into the `int` range. -/
def wrap_int (x : Int) : Int := (x + 2147483648) % 4294967296 - 2147483648

/-- The C function `strdup(s)`: a copy of the C string at `s`, that is the characters before
the first NUL. -/
def strdup (s : List Char) : List Char := s.takeWhile (fun c => c != NUL)

/-- The C function `strlen(s)`: the number of characters before the first NUL. -/
def strlen : List Char → Nat
  | [] => 0
  | c :: cs => if c = NUL then 0 else strlen cs + 1

/-- The character `s[0]`: the first character, the terminator when the string is empty. -/
def first_char (s : List Char) : Char := s.headD NUL

/-- The C function `strchr(s, c)` for `c` other than NUL: the offset of the first `c` in the C
string at `s`, or `none` (a null pointer) when the string has no `c`. -/
def strchr : List Char → Char → Option Nat
  | [], _ => none
  | x :: xs, c =>
    if x = c then some 0
    else if x = NUL then none
    else (strchr xs c).map (fun i => i + 1)

/-- The C function `isspace` in the C locale. -/
def isspace (c : Char) : Bool :=
  c = ' ' || c = '\t' || c = '\n' || c = '\x0b' || c = '\x0c' || c = '\r'

/-- The C function `isdigit`: one of `'0'`..`'9'`. -/
def isdigit (c : Char) : Bool := 48 ≤ c.toNat && c.toNat ≤ 57

/-- The digit loop of `atoi`: accumulates the leading decimal digits of the
string onto `acc` and stops at the first character that is not a digit. -/
def atoi_digits : Nat → List Char → Nat
  | acc, [] => acc
  | acc, c :: cs =>
    if isdigit c then atoi_digits (10 * acc + (c.toNat - 48)) cs else acc

/-- The mathematical value `atoi` reads: leading white space is skipped, one
optional sign is read, then the leading decimal digits. No digit gives 0. -/
def atoi_value (nptr : List Char) : Int :=
  match nptr.dropWhile isspace with
  | [] => 0
  | c :: r =>
    if c = '-' then -(atoi_digits 0 r : Int)
    else if c = '+' then (atoi_digits 0 r : Int)
    else (atoi_digits 0 (c :: r) : Int)

/-- The C function `atoi(nptr)`. The C standard leaves the result undefined when the value
read does not fit in an `int`; `overflow` stands for what the C library returns
then, as a function of the value read, and every theorem below holds for every
choice of it. -/
def atoi (overflow : Int → Int) (nptr : List Char) : Int :=
  let v := atoi_value nptr
  if INT_MIN ≤ v ∧ v ≤ INT_MAX then v else overflow v

/-! ## Sound records and the configuration line parser -/

/-- The `SoundInfo` record; a `char *` field is `none` when it is `NULL`. -/
structure SoundInfo where
  id : Int
  filename : Option (List Char)
  keybind : Option (List Char)
  description : Option (List Char)
deriving DecidableEq

/-- The record after the initialisation at the top of `parse_config_line`. -/
def SoundInfo.init : SoundInfo :=
  { id := 0, filename := none, keybind := none, description := none }

/-- The `switch (field)` of the parsing loop, applied to the current field text
`tok` (the C string at `start` once `*end` has been overwritten with NUL).
`none` is the `return 0` taken for a malformed id. -/
def store_field (overflow : Int → Int) (field : Nat) (tok : List Char)
    (sound : SoundInfo) : Option SoundInfo :=
  match field with
  | 0 =>
    let id := atoi overflow tok
    if id = 0 ∧ first_char tok ≠ '0' then none
    else some { sound with id := id }
  | 1 => some { sound with filename := some (strdup tok) }
  | 2 => some { sound with keybind := some (strdup tok) }
  | 3 => some { sound with description := some (strdup tok) }
  | _ => some sound

/-- The loop `while (field < 4)` of `parse_config_line`. `start` is the text
from the pointer `start` on. The result is `none` when the loop body returns 0,
otherwise the value of `field` and the record when the loop is left (by `break`
or by its guard). The guard bounds the iterations by 4, which is the amount of
fuel `parse_config_line` passes. -/
def parse_loop (overflow : Int → Int) :
    Nat → List Char → Nat → SoundInfo → Option (Nat × SoundInfo)
  | 0, _, field, sound => some (field, sound)
  | fuel + 1, start, field, sound =>
    if field < 4 then
      let end_ := strchr start '|'
      let tok := match end_ with
        | some i => start.take i
        | none => start
      match store_field overflow field tok sound with
      | none => none
      | some sound1 =>
        match end_ with
        | none => some (field + 1, sound1)
        | some i => parse_loop overflow fuel (start.drop (i + 1)) (field + 1) sound1
    else some (field, sound)

/-- The working copy of the line once the first newline has been overwritten
with NUL. -/
def strip_newline (line_copy : List Char) : List Char :=
  match strchr line_copy '\n' with
  | some i => line_copy.take i
  | none => line_copy

/-- The function `parse_config_line(line, sound)`: `none` when the function returns 0,
`some s` when it returns 1 with `*sound = s`. -/
def parse_config_line (overflow : Int → Int) (line : List Char) : Option SoundInfo :=
  if first_char line = '#' ∨ first_char line = '\n' ∨ strlen line < 3 then none
  else
    let line_copy := strip_newline (strdup line)
    match parse_loop overflow 4 line_copy 0 SoundInfo.init with
    | none => none
    | some (field, sound) => if field ≥ 4 then some sound else none

/-! ## Notions of the specification used in the statements -/

/-- The text of a field: no `'|'`, no newline and no NUL. -/
def field_text (f : List Char) : Prop := ∀ c ∈ f, c ≠ '|' ∧ c ≠ '\n' ∧ c ≠ NUL

/-- The numeric value of a string of decimal digits. -/
def decimal_value (n : List Char) : Nat :=
  n.foldl (fun acc c => 10 * acc + (c.toNat - 48)) 0

/-- The first pipe-delimited field of a line: its text before the first `'|'`,
newline or NUL. -/
def first_field (line : List Char) : List Char :=
  ((strdup line).takeWhile (fun c => c != '\n')).takeWhile (fun c => c != '|')

/-- An optionally signed decimal integer: an optional `'+'` or `'-'`, then one
or more decimal digits and nothing else. -/
def is_decimal_integer (f : List Char) : Bool :=
  match f with
  | [] => false
  | c :: r =>
    if c = '-' ∨ c = '+' then !r.isEmpty && r.all isdigit
    else (c :: r).all isdigit

/-- The field begins with a number as `atoi` reads one: after leading white
space and one optional sign comes a decimal digit. -/
def starts_with_number (f : List Char) : Bool :=
  match f.dropWhile isspace with
  | [] => false
  | c :: r =>
    if c = '-' ∨ c = '+' then
      match r with
      | [] => false
      | x :: _ => isdigit x
    else isdigit c

/-! ## Grid sizing -/

/-- The function `calculate_grid_columns(window_width, sound_count)`. The subtraction is the
only operation that can leave the `int` range; the `printf` is left out. -/
def calculate_grid_columns (window_width sound_count : Int) : Int :=
  let usable_width := wrap_int (window_width - 60)
  let button_width : Int := 140
  let button_spacing : Int := 5
  let total_button_width := button_width + button_spacing
  let max_cols_by_width := Int.tdiv usable_width total_button_width
  let max_cols_by_width := if max_cols_by_width < 1 then 1 else max_cols_by_width
  let min_cols : Int := 1
  let max_cols : Int := 16
  let max_cols_by_width := if max_cols_by_width < min_cols then min_cols else max_cols_by_width
  let max_cols_by_width := if max_cols_by_width > max_cols then max_cols else max_cols_by_width
  if sound_count > 0 ∧ sound_count < max_cols_by_width then sound_count
  else max_cols_by_width

/-- The value `clamp(x, lo, hi)`: `x` brought into the interval from `lo` to `hi`. -/
def clamp (x lo hi : Int) : Int := max lo (min x hi)

/-- The width-derived column count `clamp((width - 60) / 145, 1, 16)`, the
subtraction and the division being those of C on `int`. -/
def width_columns (window_width : Int) : Int :=
  clamp (Int.tdiv (wrap_int (window_width - 60)) 145) 1 16

/-! ## Key symbols

The key symbol values come from the GTK header `gdk/gdkkeysyms.h`, which the
source includes and which is not part of the repository; each `GDK_KEY_x` there
is the X11 keysym `XK_x`. -/

def GDK_KEY_KP_0 : Nat := 0xffb0
def GDK_KEY_KP_1 : Nat := 0xffb1
def GDK_KEY_KP_2 : Nat := 0xffb2
def GDK_KEY_KP_3 : Nat := 0xffb3
def GDK_KEY_KP_4 : Nat := 0xffb4
def GDK_KEY_KP_5 : Nat := 0xffb5
def GDK_KEY_KP_6 : Nat := 0xffb6
def GDK_KEY_KP_7 : Nat := 0xffb7
def GDK_KEY_KP_8 : Nat := 0xffb8
def GDK_KEY_KP_9 : Nat := 0xffb9
def GDK_KEY_0 : Nat := 0x0030
def GDK_KEY_1 : Nat := 0x0031
def GDK_KEY_2 : Nat := 0x0032
def GDK_KEY_3 : Nat := 0x0033
def GDK_KEY_4 : Nat := 0x0034
def GDK_KEY_5 : Nat := 0x0035
def GDK_KEY_6 : Nat := 0x0036
def GDK_KEY_7 : Nat := 0x0037
def GDK_KEY_8 : Nat := 0x0038
def GDK_KEY_9 : Nat := 0x0039
def GDK_KEY_a : Nat := 0x0061
def GDK_KEY_A : Nat := 0x0041
def GDK_KEY_b : Nat := 0x0062
def GDK_KEY_B : Nat := 0x0042
def GDK_KEY_c : Nat := 0x0063
def GDK_KEY_C : Nat := 0x0043
def GDK_KEY_d : Nat := 0x0064
def GDK_KEY_D : Nat := 0x0044
def GDK_KEY_e : Nat := 0x0065
def GDK_KEY_E : Nat := 0x0045
def GDK_KEY_f : Nat := 0x0066
def GDK_KEY_F : Nat := 0x0046
def GDK_KEY_g : Nat := 0x0067
def GDK_KEY_G : Nat := 0x0047
def GDK_KEY_h : Nat := 0x0068
def GDK_KEY_H : Nat := 0x0048
def GDK_KEY_i : Nat := 0x0069
def GDK_KEY_I : Nat := 0x0049
def GDK_KEY_j : Nat := 0x006a
def GDK_KEY_J : Nat := 0x004a
def GDK_KEY_k : Nat := 0x006b
def GDK_KEY_K : Nat := 0x004b
def GDK_KEY_l : Nat := 0x006c
def GDK_KEY_L : Nat := 0x004c
def GDK_KEY_m : Nat := 0x006d
def GDK_KEY_M : Nat := 0x004d
def GDK_KEY_n : Nat := 0x006e
def GDK_KEY_N : Nat := 0x004e
def GDK_KEY_o : Nat := 0x006f
def GDK_KEY_O : Nat := 0x004f
def GDK_KEY_p : Nat := 0x0070
def GDK_KEY_P : Nat := 0x0050
def GDK_KEY_q : Nat := 0x0071
def GDK_KEY_Q : Nat := 0x0051
def GDK_KEY_r : Nat := 0x0072
def GDK_KEY_R : Nat := 0x0052
def GDK_KEY_s : Nat := 0x0073
def GDK_KEY_S : Nat := 0x0053
def GDK_KEY_t : Nat := 0x0074
def GDK_KEY_T : Nat := 0x0054
def GDK_KEY_u : Nat := 0x0075
def GDK_KEY_U : Nat := 0x0055
def GDK_KEY_v : Nat := 0x0076
def GDK_KEY_V : Nat := 0x0056
def GDK_KEY_w : Nat := 0x0077
def GDK_KEY_W : Nat := 0x0057
def GDK_KEY_x : Nat := 0x0078
def GDK_KEY_X : Nat := 0x0058
def GDK_KEY_y : Nat := 0x0079
def GDK_KEY_Y : Nat := 0x0059
def GDK_KEY_z : Nat := 0x007a
def GDK_KEY_Z : Nat := 0x005a
def GDK_KEY_Page_Up : Nat := 0xff55
def GDK_KEY_Page_Down : Nat := 0xff56
def GDK_KEY_KP_Multiply : Nat := 0xffaa
def GDK_KEY_KP_Divide : Nat := 0xffaf
def GDK_KEY_KP_Subtract : Nat := 0xffad
def GDK_KEY_KP_Add : Nat := 0xffab
def GDK_KEY_Delete : Nat := 0xffff
def GDK_KEY_KP_Decimal : Nat := 0xffae
def GDK_KEY_F1 : Nat := 0xffbe
def GDK_KEY_F2 : Nat := 0xffbf
def GDK_KEY_F3 : Nat := 0xffc0
def GDK_KEY_F4 : Nat := 0xffc1
def GDK_KEY_F5 : Nat := 0xffc2
def GDK_KEY_F6 : Nat := 0xffc3
def GDK_KEY_F7 : Nat := 0xffc4
def GDK_KEY_F8 : Nat := 0xffc5
def GDK_KEY_F9 : Nat := 0xffc6
def GDK_KEY_F10 : Nat := 0xffc7
def GDK_KEY_F11 : Nat := 0xffc8
def GDK_KEY_F12 : Nat := 0xffc9
def GDK_KEY_Escape : Nat := 0xff1b

/-- The function `gdk_key_to_string(keyval)`: the token the script expects for a key symbol,
`none` for the `NULL` result. The `switch` is a chain of tests in the order of
its `case` labels. -/
def gdk_key_to_string (keyval : Nat) : Option String :=
  if keyval = GDK_KEY_KP_0 then some "KP_0"
  else if keyval = GDK_KEY_KP_1 then some "KP_1"
  else if keyval = GDK_KEY_KP_2 then some "KP_2"
  else if keyval = GDK_KEY_KP_3 then some "KP_3"
  else if keyval = GDK_KEY_KP_4 then some "KP_4"
  else if keyval = GDK_KEY_KP_5 then some "KP_5"
  else if keyval = GDK_KEY_KP_6 then some "KP_6"
  else if keyval = GDK_KEY_KP_7 then some "KP_7"
  else if keyval = GDK_KEY_KP_8 then some "KP_8"
  else if keyval = GDK_KEY_KP_9 then some "KP_9"
  else if keyval = GDK_KEY_0 then some "0"
  else if keyval = GDK_KEY_1 then some "1"
  else if keyval = GDK_KEY_2 then some "2"
  else if keyval = GDK_KEY_3 then some "3"
  else if keyval = GDK_KEY_4 then some "4"
  else if keyval = GDK_KEY_5 then some "5"
  else if keyval = GDK_KEY_6 then some "6"
  else if keyval = GDK_KEY_7 then some "7"
  else if keyval = GDK_KEY_8 then some "8"
  else if keyval = GDK_KEY_9 then some "9"
  else if keyval = GDK_KEY_a ∨ keyval = GDK_KEY_A then some "a"
  else if keyval = GDK_KEY_b ∨ keyval = GDK_KEY_B then some "b"
  else if keyval = GDK_KEY_c ∨ keyval = GDK_KEY_C then some "c"
  else if keyval = GDK_KEY_d ∨ keyval = GDK_KEY_D then some "d"
  else if keyval = GDK_KEY_e ∨ keyval = GDK_KEY_E then some "e"
  else if keyval = GDK_KEY_f ∨ keyval = GDK_KEY_F then some "f"
  else if keyval = GDK_KEY_g ∨ keyval = GDK_KEY_G then some "g"
  else if keyval = GDK_KEY_h ∨ keyval = GDK_KEY_H then some "h"
  else if keyval = GDK_KEY_i ∨ keyval = GDK_KEY_I then some "i"
  else if keyval = GDK_KEY_j ∨ keyval = GDK_KEY_J then some "j"
  else if keyval = GDK_KEY_k ∨ keyval = GDK_KEY_K then some "k"
  else if keyval = GDK_KEY_l ∨ keyval = GDK_KEY_L then some "l"
  else if keyval = GDK_KEY_m ∨ keyval = GDK_KEY_M then some "m"
  else if keyval = GDK_KEY_n ∨ keyval = GDK_KEY_N then some "n"
  else if keyval = GDK_KEY_o ∨ keyval = GDK_KEY_O then some "o"
  else if keyval = GDK_KEY_p ∨ keyval = GDK_KEY_P then some "p"
  else if keyval = GDK_KEY_q ∨ keyval = GDK_KEY_Q then some "q"
  else if keyval = GDK_KEY_r ∨ keyval = GDK_KEY_R then some "r"
  else if keyval = GDK_KEY_s ∨ keyval = GDK_KEY_S then some "s"
  else if keyval = GDK_KEY_t ∨ keyval = GDK_KEY_T then some "t"
  else if keyval = GDK_KEY_u ∨ keyval = GDK_KEY_U then some "u"
  else if keyval = GDK_KEY_v ∨ keyval = GDK_KEY_V then some "v"
  else if keyval = GDK_KEY_w ∨ keyval = GDK_KEY_W then some "w"
  else if keyval = GDK_KEY_x ∨ keyval = GDK_KEY_X then some "x"
  else if keyval = GDK_KEY_y ∨ keyval = GDK_KEY_Y then some "y"
  else if keyval = GDK_KEY_z ∨ keyval = GDK_KEY_Z then some "z"
  else if keyval = GDK_KEY_Page_Up then some "KP_PGUP"
  else if keyval = GDK_KEY_Page_Down then some "KP_PGDOWN"
  else if keyval = GDK_KEY_KP_Multiply then some "KP_Multiply"
  else if keyval = GDK_KEY_KP_Divide then some "KP_Divide"
  else if keyval = GDK_KEY_KP_Subtract then some "KP_Subtract"
  else if keyval = GDK_KEY_KP_Add then some "KP_Add"
  else if keyval = GDK_KEY_Delete then some "Delete"
  else if keyval = GDK_KEY_KP_Decimal then some "KP_Decimal"
  else if keyval = GDK_KEY_F1 then some "F1"
  else if keyval = GDK_KEY_F2 then some "F2"
  else if keyval = GDK_KEY_F3 then some "F3"
  else if keyval = GDK_KEY_F4 then some "F4"
  else if keyval = GDK_KEY_F5 then some "F5"
  else if keyval = GDK_KEY_F6 then some "F6"
  else if keyval = GDK_KEY_F7 then some "F7"
  else if keyval = GDK_KEY_F8 then some "F8"
  else if keyval = GDK_KEY_F9 then some "F9"
  else if keyval = GDK_KEY_F10 then some "F10"
  else if keyval = GDK_KEY_F11 then some "F11"
  else if keyval = GDK_KEY_F12 then some "F12"
  else if keyval = GDK_KEY_Escape then none
  else none

/-- The supported key set: digits 0-9, letters a-z and A-Z, keypad KP_0..KP_9,
KP_Multiply, KP_Divide, KP_Subtract, KP_Add, KP_Decimal, Page_Up, Page_Down,
Delete and F1..F12. -/
def supported_key (k : Nat) : Prop :=
  (GDK_KEY_0 ≤ k ∧ k ≤ GDK_KEY_9) ∨ (GDK_KEY_a ≤ k ∧ k ≤ GDK_KEY_z) ∨
  (GDK_KEY_A ≤ k ∧ k ≤ GDK_KEY_Z) ∨ (GDK_KEY_KP_0 ≤ k ∧ k ≤ GDK_KEY_KP_9) ∨
  k = GDK_KEY_KP_Multiply ∨ k = GDK_KEY_KP_Divide ∨ k = GDK_KEY_KP_Subtract ∨
  k = GDK_KEY_KP_Add ∨ k = GDK_KEY_KP_Decimal ∨ k = GDK_KEY_Page_Up ∨
  k = GDK_KEY_Page_Down ∨ k = GDK_KEY_Delete ∨ (GDK_KEY_F1 ≤ k ∧ k ≤ GDK_KEY_F12)

/-- The digit keys, in the order of their digits. -/
def digit_keys : List Nat :=
  [GDK_KEY_0, GDK_KEY_1, GDK_KEY_2, GDK_KEY_3, GDK_KEY_4, GDK_KEY_5, GDK_KEY_6, GDK_KEY_7,
   GDK_KEY_8, GDK_KEY_9]

/-- The lower-case letter keys, in alphabetical order. -/
def lower_keys : List Nat :=
  [GDK_KEY_a, GDK_KEY_b, GDK_KEY_c, GDK_KEY_d, GDK_KEY_e, GDK_KEY_f, GDK_KEY_g, GDK_KEY_h,
   GDK_KEY_i, GDK_KEY_j, GDK_KEY_k, GDK_KEY_l, GDK_KEY_m, GDK_KEY_n, GDK_KEY_o, GDK_KEY_p,
   GDK_KEY_q, GDK_KEY_r, GDK_KEY_s, GDK_KEY_t, GDK_KEY_u, GDK_KEY_v, GDK_KEY_w, GDK_KEY_x,
   GDK_KEY_y, GDK_KEY_z]

/-- The upper-case letter keys, in alphabetical order. -/
def upper_keys : List Nat :=
  [GDK_KEY_A, GDK_KEY_B, GDK_KEY_C, GDK_KEY_D, GDK_KEY_E, GDK_KEY_F, GDK_KEY_G, GDK_KEY_H,
   GDK_KEY_I, GDK_KEY_J, GDK_KEY_K, GDK_KEY_L, GDK_KEY_M, GDK_KEY_N, GDK_KEY_O, GDK_KEY_P,
   GDK_KEY_Q, GDK_KEY_R, GDK_KEY_S, GDK_KEY_T, GDK_KEY_U, GDK_KEY_V, GDK_KEY_W, GDK_KEY_X,
   GDK_KEY_Y, GDK_KEY_Z]

/-- The keypad digit keys `KP_0`..`KP_9`, in the order of their digits. -/
def keypad_keys : List Nat :=
  [GDK_KEY_KP_0, GDK_KEY_KP_1, GDK_KEY_KP_2, GDK_KEY_KP_3, GDK_KEY_KP_4, GDK_KEY_KP_5,
   GDK_KEY_KP_6, GDK_KEY_KP_7, GDK_KEY_KP_8, GDK_KEY_KP_9]

/-- The function keys `F1`..`F12`, in order. -/
def function_keys : List Nat :=
  [GDK_KEY_F1, GDK_KEY_F2, GDK_KEY_F3, GDK_KEY_F4, GDK_KEY_F5, GDK_KEY_F6, GDK_KEY_F7,
   GDK_KEY_F8, GDK_KEY_F9, GDK_KEY_F10, GDK_KEY_F11, GDK_KEY_F12]

/-- The lower-case letter number `i` of the alphabet, counted from 0. -/
def lower_letter (i : Nat) : Char := Char.ofNat (97 + i)

/-- An ASCII letter, an ASCII digit or `'_'`. -/
def token_char (c : Char) : Bool :=
  (97 ≤ c.toNat && c.toNat ≤ 122) || (65 ≤ c.toNat && c.toNat ≤ 90) ||
  (48 ≤ c.toNat && c.toNat ≤ 57) || c = '_'

/-! ## Environment and subprocess invocation

Memory allocation (`strdup`, `calloc`) is taken to succeed. The text printed
with `printf` and `g_print` is left out; the commands handed to `system` are
recorded in the order in which they are executed. -/

/-- What the handlers read from outside the program. -/
structure Env where
  /-- The C string `getenv("HOME")` returns, `none` for a null pointer. -/
  home : Option (List Char)
  /-- The value `system(command)` returns. -/
  system : List Char → Int
  /-- Whether `access(path, F_OK)` returns 0. -/
  access_f : List Char → Bool
  /-- Whether `access(path, X_OK)` returns 0. -/
  access_x : List Char → Bool
  /-- The lines successive `fgets` calls read from the file at
  `$HOME/soundboard/config.txt`, `none` when `fopen` fails. -/
  config_file : Option (List (List Char))
  /-- The width `gtk_window_get_size` reports. -/
  window_width : Int

/-- The C function `snprintf(buf, size, ...)` seen from its result: the
formatted text cut to the `size - 1` characters the buffer holds. -/
def snprintf (size : Nat) (text : List Char) : List Char := text.take (size - 1)

/-- The conversion `%d`: the decimal numeral of an `int`. -/
def fmt_d (n : Int) : List Char := (toString n).toList

/-- The handler `setup_callback`: the commands it executes. -/
def setup_callback (env : Env) : List (List Char) :=
  match env.home with
  | none => []
  | some home => [snprintf 1024 (home ++ "/soundboard/soundboard.sh setup".toList)]

/-- The handler `shutdown_callback`: the commands it executes. -/
def shutdown_callback (env : Env) : List (List Char) :=
  match env.home with
  | none => []
  | some home => [snprintf 1024 (home ++ "/soundboard/soundboard.sh cleanup".toList)]

/-- The handler `stop_callback`: the commands it executes. -/
def stop_callback (env : Env) : List (List Char) :=
  match env.home with
  | none => []
  | some home => [snprintf 1024 (home ++ "/soundboard/soundboard.sh stop".toList)]

/-- The handler `play_sound_callback` for the sound `sound_id`: the commands
it executes. -/
def play_sound_callback (env : Env) (sound_id : Int) : List (List Char) :=
  match env.home with
  | none => []
  | some home =>
    let command := snprintf 1024
      (home ++ "/soundboard/soundboard.sh ".toList ++ fmt_d sound_id ++ " both".toList)
    let script_path := snprintf 1024 (home ++ "/soundboard/soundboard.sh".toList)
    if !env.access_f script_path then []
    else if !env.access_x script_path then []
    else [command]

/-- The handler `on_right_click`: its return value and the commands it
executes. `press` tells whether the event type is `GDK_BUTTON_PRESS`. -/
def on_right_click (env : Env) (press : Bool) (button : Nat) (sound_id : Int) :
    Bool × List (List Char) :=
  match env.home with
  | none => (false, [])
  | some home =>
    if press ∧ button = 3 then
      (true, [snprintf 1024 (home ++ "/soundboard/soundboard.sh unbind ".toList ++ fmt_d sound_id)])
    else (false, [])

/-! ## The key binding interaction -/

/-- The two globals `waiting_for_key` and `pending_sound_id`. -/
structure KeyState where
  waiting_for_key : Bool
  pending_sound_id : Int
deriving DecidableEq

/-- The initial values of the two globals. -/
def KeyState.initial : KeyState := { waiting_for_key := false, pending_sound_id := 0 }

/-- What an event handler leaves behind: its return value, the globals, and the
commands it executed, in order. -/
structure HandlerResult where
  ret : Bool
  state : KeyState
  commands : List (List Char)
deriving DecidableEq

/-- The handler `on_key_press` for the key symbol `keyval`. -/
def on_key_press (env : Env) (st : KeyState) (keyval : Nat) : HandlerResult :=
  if !st.waiting_for_key then { ret := false, state := st, commands := [] }
  else
    let key_string := gdk_key_to_string keyval
    if key_string = none ∧ keyval = GDK_KEY_Escape then
      { ret := true,
        state := { waiting_for_key := false, pending_sound_id := 0 },
        commands := setup_callback env }
    else
      match key_string with
      | none => { ret := true, state := st, commands := [] }
      | some token =>
        match env.home with
        | none =>
          { ret := true, state := { st with waiting_for_key := false }, commands := [] }
        | some home =>
          let command := snprintf 1024
            (home ++ "/soundboard/soundboard.sh bind ".toList ++ fmt_d st.pending_sound_id
              ++ " ".toList ++ token.toList)
          { ret := true,
            state := { waiting_for_key := false, pending_sound_id := 0 },
            commands := command :: setup_callback env }

/-- The handler `on_middle_click` on the button of the sound `sound_id`.
`press` tells whether the event type is `GDK_BUTTON_PRESS`. -/
def on_middle_click (env : Env) (st : KeyState) (press : Bool) (button : Nat)
    (sound_id : Int) : HandlerResult :=
  if press ∧ button = 2 then
    { ret := true,
      state := { waiting_for_key := true, pending_sound_id := sound_id },
      commands := shutdown_callback env }
  else { ret := false, state := st, commands := [] }

/-- An event of the key binding interaction. -/
inductive Event where
  | middle_click (press : Bool) (button : Nat) (sound_id : Int)
  | key_press (keyval : Nat)

/-- The globals after the handler of one event has run. -/
def Event.apply (env : Env) (st : KeyState) : Event → KeyState
  | Event.middle_click press button sound_id =>
    (on_middle_click env st press button sound_id).state
  | Event.key_press keyval => (on_key_press env st keyval).state

/-- The globals after the handlers of a sequence of events have run, one after
the other, from the initial state. -/
def run_events (env : Env) (events : List Event) : KeyState :=
  events.foldl (Event.apply env) KeyState.initial

/-- The full text `<HOME>/soundboard/soundboard.sh bind <id> <token>`, with the
id printed in decimal. -/
def bind_command (home : List Char) (sound_id : Int) (token : String) : List Char :=
  home ++ "/soundboard/soundboard.sh bind ".toList ++ (toString sound_id).toList
    ++ [' '] ++ token.toList

/-- An environment in which `HOME` is not set. -/
def env_without_home : Env :=
  { home := none, system := fun _ => 0, access_f := fun _ => true, access_x := fun _ => true,
    config_file := none, window_width := 640 }

/-- An environment in which `HOME` is set to `home`. -/
def env_with_home (home : List Char) : Env :=
  { env_without_home with home := some home }

/-! ## Loading the configuration file and placing the buttons -/

/-- The part of `app_data` the loader and the grid use: the array `sounds`
(`none` for a null pointer), `sound_count` and `grid_columns`. -/
structure AppData where
  sounds : Option (List SoundInfo)
  sound_count : Nat
  grid_columns : Int
deriving DecidableEq

/-- The first pass of `load_sounds_from_config`: the loop that counts the lines
`parse_config_line` accepts, started with the counter at `count`. -/
def count_valid_lines (overflow : Int → Int) : List (List Char) → Nat → Nat
  | [], count => count
  | line :: rest, count =>
    match parse_config_line overflow line with
    | some _ => count_valid_lines overflow rest (count + 1)
    | none => count_valid_lines overflow rest count

/-- The second pass of `load_sounds_from_config`: the loop
`while (fgets(...) && app_data.sound_count < count)`, on the array `sounds` and
the counter `sound_count`. An accepted line is stored in the slot `sound_count`.
What a rejected line leaves in that slot is not kept: the slot lies past
`sound_count` until the next accepted line overwrites it. -/
def load_lines (overflow : Int → Int) (count : Nat) :
    List (List Char) → List SoundInfo → Nat → List SoundInfo × Nat
  | [], sounds, sound_count => (sounds, sound_count)
  | line :: rest, sounds, sound_count =>
    if sound_count < count then
      match parse_config_line overflow line with
      | some sound => load_lines overflow count rest (sounds.set sound_count sound) (sound_count + 1)
      | none => load_lines overflow count rest sounds sound_count
    else (sounds, sound_count)

/-- The function `load_sounds_from_config`: its return value and `app_data`
afterwards. -/
def load_sounds_from_config (overflow : Int → Int) (env : Env) (app : AppData) :
    Int × AppData :=
  match env.home with
  | none => (0, app)
  | some _ =>
    match env.config_file with
    | none => (0, app)
    | some lines =>
      let count := count_valid_lines overflow lines 0
      if count = 0 then (0, app)
      else
        let sounds := List.replicate count SoundInfo.init
        let loaded := load_lines overflow count lines sounds 0
        (1, { app with sounds := some loaded.1, sound_count := loaded.2 })

/-- The grid position computed for the button number `i`: its row and its
column. -/
def grid_position (grid_columns i : Int) : Int × Int :=
  (Int.tdiv i grid_columns, Int.tmod i grid_columns)

/-- The function `create_button_grid`: `app_data` afterwards and, for each
button in order, the column and the row passed to `gtk_grid_attach`. The
labels and tooltips are left out. -/
def create_button_grid (env : Env) (app : AppData) : AppData × List (Int × Int) :=
  if app.sound_count = 0 then (app, [])
  else
    let grid_columns := calculate_grid_columns env.window_width app.sound_count
    ({ app with grid_columns := grid_columns },
      (List.range app.sound_count).map (fun (i : Nat) =>
        let row := (grid_position grid_columns (i : Int)).1
        let col := (grid_position grid_columns (i : Int)).2
        (col, row)))

/-- The function `cleanup_sounds`. -/
def cleanup_sounds (app : AppData) : AppData :=
  match app.sounds with
  | some _ => { app with sounds := none, sound_count := 0 }
  | none => app

/-- The function `refresh_grid`, on `app_data`. -/
def refresh_grid (overflow : Int → Int) (env : Env) (app : AppData) : AppData :=
  let app := cleanup_sounds app
  let loaded := load_sounds_from_config overflow env app
  if loaded.1 ≠ 0 then (create_button_grid env loaded.2).1 else loaded.2

/-- The handler `scan_callback`: the commands it executes and `app_data`
afterwards. -/
def scan_callback (overflow : Int → Int) (env : Env) (app : AppData) :
    List (List Char) × AppData :=
  match env.home with
  | none => ([], app)
  | some home =>
    let command := snprintf 1024 (home ++ "/soundboard/soundboard.sh scan".toList)
    let result := env.system command
    if result = -1 then ([command], app)
    else if result ≠ 0 then ([command], app)
    else ([command], refresh_grid overflow env app)

/-! ## Dependency check at startup -/

/-- The record `Dependency`. -/
structure Dependency where
  command : String
  package_name : String
  description : String
  required : Int

/-- The table `dependencies`, without its sentinel. -/
def dependencies : List Dependency :=
  [ { command := "pactl", package_name := "pulseaudio-utils",
      description := "PulseAudio control utility", required := 1 },
    { command := "paplay", package_name := "pulseaudio-utils",
      description := "PulseAudio playback utility", required := 1 },
    { command := "xbindkeys", package_name := "xbindkeys",
      description := "Global hotkey daemon", required := 1 },
    { command := "bash", package_name := "bash", description := "Bash shell", required := 1 } ]

/-- The function `command_exists`. -/
def command_exists (env : Env) (command : String) : Bool :=
  env.system (snprintf 256 ("command -v ".toList ++ command.toList ++ " >/dev/null 2>&1".toList)) = 0

/-- The loop of `check_dependencies` over the table, on `missing_deps` and
`missing_count`. The names appended stay far below the 512 characters of the
buffer. -/
def check_dependencies_loop (env : Env) : List Dependency → String × Nat → String × Nat
  | [], acc => acc
  | dep :: rest, (missing_deps, missing_count) =>
    if command_exists env dep.command then
      check_dependencies_loop env rest (missing_deps, missing_count)
    else if dep.required ≠ 0 then
      let missing_deps := if missing_count > 0 then missing_deps ++ " " else missing_deps
      check_dependencies_loop env rest (missing_deps ++ dep.package_name, missing_count + 1)
    else check_dependencies_loop env rest (missing_deps, missing_count)

/-- The function `check_dependencies`: its return value and, when the error
dialog is shown, the list of missing packages the dialog names. -/
def check_dependencies (env : Env) : Int × Option String :=
  let loop := check_dependencies_loop env dependencies ("", 0)
  if loop.2 > 0 then (0, some loop.1) else (1, none)

/-- The function `initialize_with_dependency_check`. -/
def initialize_with_dependency_check (env : Env) : Int :=
  if (check_dependencies env).1 = 0 then 0 else 1

/-- What `main` does: its exit status and whether `create_soundboard_gui` has
been called. The GTK main loop is taken to return. -/
structure MainResult where
  status : Int
  gui_created : Bool
deriving DecidableEq

/-- The function `main`. -/
def main (env : Env) : MainResult :=
  if initialize_with_dependency_check env = 0 then { status := 1, gui_created := false }
  else { status := 0, gui_created := true }


/-! ## Facts about the C string functions -/

theorem strdup_no_nul (s : List Char) : ∀ c ∈ strdup s, c ≠ NUL := by
  intro c hc
  have h := List.mem_takeWhile_imp hc
  simpa using h

theorem strdup_of_no_nul {s : List Char} (h : ∀ c ∈ s, c ≠ NUL) : strdup s = s := by
  unfold strdup
  rw [List.takeWhile_eq_self_iff]
  intro c hc
  simpa using h c hc

theorem strlen_eq_length_strdup (s : List Char) : strlen s = (strdup s).length := by
  induction s with
  | nil => rfl
  | cons c cs ih =>
    by_cases hc : c = NUL
    · simp [strlen, strdup, hc]
    · simp [strlen, strdup, hc, List.takeWhile_cons]
      simpa [strdup] using ih

theorem strchr_some_split {c : Char} :
    ∀ {s : List Char} {i : Nat}, strchr s c = some i →
      s = s.take i ++ c :: s.drop (i + 1) ∧ c ∉ s.take i
  | [], i, h => by simp [strchr] at h
  | x :: xs, i, h => by
    unfold strchr at h
    by_cases hx : x = c
    · simp [hx] at h
      subst h
      simp [hx]
    · simp only [hx, if_false] at h
      by_cases h0 : x = NUL
      · simp [h0] at h
      · simp only [h0, if_false, Option.map_eq_some'] at h
        obtain ⟨j, hj, rfl⟩ := h
        have ih := strchr_some_split hj
        refine ⟨?_, ?_⟩
        · simp only [List.take_succ_cons, List.drop_succ_cons, List.cons_append]
          rw [← ih.1]
        · simp only [List.take_succ_cons, List.mem_cons, not_or]
          exact ⟨fun e => hx e.symm, ih.2⟩

theorem strchr_append {c : Char} (b : List Char) :
    ∀ {a : List Char}, c ∉ a → (∀ x ∈ a, x ≠ NUL) → strchr (a ++ c :: b) c = some a.length
  | [], _, _ => by simp [strchr]
  | x :: xs, hc, h0 => by
    have hx : x ≠ c := fun e => hc (by simp [e])
    have hx0 : x ≠ NUL := h0 x (by simp)
    have ih := strchr_append b (a := xs) (fun h => hc (List.mem_cons_of_mem _ h))
      (fun y hy => h0 y (List.mem_cons_of_mem _ hy))
    simp [strchr, hx, hx0, ih]

theorem strchr_none_of_not_mem {c : Char} :
    ∀ {a : List Char}, c ∉ a → strchr a c = none
  | [], _ => by simp [strchr]
  | x :: xs, hc => by
    have hx : x ≠ c := fun e => hc (by simp [e])
    have ih := strchr_none_of_not_mem (a := xs) (fun h => hc (List.mem_cons_of_mem _ h))
    by_cases hx0 : x = NUL
    · simp [strchr, hx, hx0]
      exact fun e => hx (hx0.trans e)
    · simp [strchr, hx, hx0, ih]

theorem strchr_eq_none_imp {c : Char} :
    ∀ {a : List Char}, (∀ x ∈ a, x ≠ NUL) → strchr a c = none → c ∉ a
  | [], _, _ => by simp
  | x :: xs, h0, h => by
    unfold strchr at h
    by_cases hx : x = c
    · simp [hx] at h
    · have hx0 : x ≠ NUL := h0 x (by simp)
      simp only [hx, hx0, if_false, Option.map_eq_none'] at h
      have ih := strchr_eq_none_imp (a := xs) (fun y hy => h0 y (by simp [hy])) h
      simp only [List.mem_cons, not_or]
      exact ⟨fun e => hx e.symm, ih⟩

/-- On a NUL-free buffer, cutting at the first `c` keeps the text before it. -/
theorem strchr_cut_eq_takeWhile (c : Char) {s : List Char} (h0 : ∀ x ∈ s, x ≠ NUL) :
    (match strchr s c with
      | some i => s.take i
      | none => s) = s.takeWhile (fun x => x != c) := by
  cases h : strchr s c with
  | none =>
    have := strchr_eq_none_imp h0 h
    symm
    rw [List.takeWhile_eq_self_iff]
    intro x hx
    have : x ≠ c := fun e => this (e ▸ hx)
    simpa using this
  | some i =>
    obtain ⟨h1, h2⟩ := strchr_some_split h
    simp only
    conv_rhs => rw [h1]
    rw [List.takeWhile_append]
    have : List.takeWhile (fun x => x != c) (List.take i s) = List.take i s := by
      rw [List.takeWhile_eq_self_iff]
      intro x hx
      have : x ≠ c := fun e => h2 (e ▸ hx)
      simpa using this
    simp [this]

/-- On a NUL-free buffer, cutting at the first newline keeps the text before
the first newline. -/
theorem strip_newline_eq_takeWhile {s : List Char} (h0 : ∀ x ∈ s, x ≠ NUL) :
    strip_newline s = s.takeWhile (fun c => c != '\n') :=
  strchr_cut_eq_takeWhile '\n' h0

/-! ## The parsing loop -/

/-- Leaving the loop with `field ≥ 4` takes one `'|'` for each field but the
last. -/
theorem parse_loop_pipes (overflow : Int → Int) :
    ∀ (fuel : Nat) (start : List Char) (field : Nat) (sound : SoundInfo)
      (f : Nat) (s : SoundInfo),
      parse_loop overflow fuel start field sound = some (f, s) → 4 ≤ f →
        4 ≤ field + List.count '|' start + 1
  | 0, start, field, sound, f, s, h, hf => by
    simp only [parse_loop, Option.some.injEq, Prod.mk.injEq] at h
    omega
  | fuel + 1, start, field, sound, f, s, h, hf => by
    unfold parse_loop at h
    by_cases hlt : field < 4
    · simp only [hlt, if_true] at h
      cases he : strchr start '|' with
      | none =>
        simp only [he] at h
        cases hs : store_field overflow field start sound with
        | none => simp [hs] at h
        | some s1 =>
          simp only [hs, Option.some.injEq, Prod.mk.injEq] at h
          omega
      | some i =>
        simp only [he] at h
        cases hs : store_field overflow field (List.take i start) sound with
        | none => simp [hs] at h
        | some s1 =>
          simp only [hs] at h
          have ih := parse_loop_pipes overflow fuel _ _ _ _ _ h hf
          obtain ⟨h1, _⟩ := strchr_some_split he
          have hc : List.count '|' start
              = List.count '|' (List.take i start) + (List.count '|' (List.drop (i + 1) start) + 1) := by
            conv_lhs => rw [h1]
            rw [List.count_append, List.count_cons_self]
          omega
    · simp only [hlt, if_false, Option.some.injEq, Prod.mk.injEq] at h
      omega

/-- An accepted line has at least three `'|'` in its text before the first
newline. -/
theorem parse_accept_pipes (overflow : Int → Int) (line : List Char) (s : SoundInfo)
    (h : parse_config_line overflow line = some s) :
    3 ≤ List.count '|' ((strdup line).takeWhile (fun c => c != '\n')) := by
  unfold parse_config_line at h
  split at h
  · simp at h
  · rw [strip_newline_eq_takeWhile (strdup_no_nul line)] at h
    simp only at h
    split at h
    · simp at h
    · rename_i f s1 hl
      split at h
      · rename_i hf
        have := parse_loop_pipes overflow _ _ _ _ _ _ hl hf
        omega
      · simp at h

/-- C1: a line whose text before its first newline holds fewer than three `'|'`
(fewer than four pipe-delimited fields) is rejected, whatever the fields hold. -/
theorem parse_config_line_too_few_fields (overflow : Int → Int) (line : List Char)
    (h : List.count '|' ((strdup line).takeWhile (fun c => c != '\n')) < 3) :
    parse_config_line overflow line = none := by
  cases hp : parse_config_line overflow line with
  | none => rfl
  | some s =>
    have := parse_accept_pipes overflow line s hp
    omega

theorem parse_config_line_too_few_fields_witness :
    List.count '|' ((strdup "7|beep.wav|F1".toList).takeWhile (fun c => c != '\n')) < 3 ∧
      parse_config_line (fun _ => 0) "7|beep.wav|F1".toList = none :=
  ⟨by decide, parse_config_line_too_few_fields (fun _ => 0) "7|beep.wav|F1".toList (by decide)⟩

/-- C3: a line whose first character is `'#'` and a line shorter than three
characters are both rejected, so they contribute no sound record. -/
theorem parse_config_line_skips_comment_and_short (overflow : Int → Int) (line : List Char)
    (h : line.head? = some '#' ∨ strlen line < 3) :
    parse_config_line overflow line = none := by
  unfold parse_config_line
  rcases h with h | h
  · have : first_char line = '#' := by
      cases line with
      | nil => simp at h
      | cons c cs => simpa [first_char] using h
    simp [this]
  · simp [h]

theorem parse_config_line_skips_comment_and_short_witness :
    (("# 1|a|b|c".toList.head? = some '#' ∨ strlen "# 1|a|b|c".toList < 3) ∧
      parse_config_line (fun _ => 0) "# 1|a|b|c".toList = none) ∧
    (("1|".toList.head? = some '#' ∨ strlen "1|".toList < 3) ∧
      parse_config_line (fun _ => 0) "1|".toList = none) :=
  ⟨⟨by decide, parse_config_line_skips_comment_and_short (fun _ => 0) _ (by decide)⟩,
   ⟨by decide, parse_config_line_skips_comment_and_short (fun _ => 0) _ (by decide)⟩⟩

theorem parse_loop_step (overflow : Int → Int) (fuel : Nat) (a rest : List Char)
    (field : Nat) (sound : SoundInfo) (ha : field_text a) (hf : field < 4) :
    parse_loop overflow (fuel + 1) (a ++ '|' :: rest) field sound =
      match store_field overflow field a sound with
      | none => none
      | some s1 => parse_loop overflow fuel rest (field + 1) s1 := by
  have h1 : strchr (a ++ '|' :: rest) '|' = some a.length :=
    strchr_append rest (fun h => (ha _ h).1 rfl) (fun x hx => (ha x hx).2.2)
  have h2 : List.drop (a.length + 1) (a ++ '|' :: rest) = rest := by simp
  rw [parse_loop]
  simp only [hf, if_true, h1, List.take_left, h2]

theorem parse_loop_last (overflow : Int → Int) (fuel : Nat) (a : List Char)
    (field : Nat) (sound : SoundInfo) (ha : field_text a) (hf : field < 4) :
    parse_loop overflow (fuel + 1) a field sound =
      match store_field overflow field a sound with
      | none => none
      | some s1 => some (field + 1, s1) := by
  have h1 : strchr a '|' = none := strchr_none_of_not_mem (fun h => (ha _ h).1 rfl)
  rw [parse_loop]
  simp only [hf, if_true, h1]

theorem takeWhile_field_append (p : Char → Bool) (a rest : List Char)
    (ha : ∀ c ∈ a, p c = true) :
    (a ++ rest).takeWhile p = a ++ rest.takeWhile p :=
  List.takeWhile_append_of_pos ha

theorem first_char_append_pipe (a rest : List Char) :
    first_char (a ++ '|' :: rest) = first_char (a ++ ['|']) := by
  cases a <;> rfl

/-- What `parse_config_line` does with a line that starts with four fields `a`, `b`, `c`, `d`
and goes on with `rest`, where `rest` is empty, starts a fifth field, or ends
the line. -/
theorem parse_config_line_fields (overflow : Int → Int) (a b c d rest : List Char)
    (ha : field_text a) (hb : field_text b) (hc : field_text c) (hd : field_text d)
    (hrest : (strdup rest).takeWhile (fun x => x != '\n') = [] ∨
      ∃ r, (strdup rest).takeWhile (fun x => x != '\n') = '|' :: r) :
    parse_config_line overflow (a ++ '|' :: (b ++ '|' :: (c ++ '|' :: (d ++ rest)))) =
      if first_char (a ++ ['|']) = '#' then none
      else match store_field overflow 0 a SoundInfo.init with
        | none => none
        | some s0 => some { s0 with filename := some b, keybind := some c,
                                    description := some d } := by
  have nn : ∀ {f : List Char}, field_text f → ∀ x ∈ f, (x != NUL) = true :=
    fun h x hx => by simpa using (h x hx).2.2
  have nl : ∀ {f : List Char}, field_text f → ∀ x ∈ f, (x != '\n') = true :=
    fun h x hx => by simpa using (h x hx).2.1
  have hdup : strdup (a ++ '|' :: (b ++ '|' :: (c ++ '|' :: (d ++ rest))))
      = a ++ '|' :: (b ++ '|' :: (c ++ '|' :: (d ++ strdup rest))) := by
    have hp : ('|' != NUL) = true := by decide
    simp only [strdup, takeWhile_field_append _ _ _ (nn ha), takeWhile_field_append _ _ _ (nn hb),
      takeWhile_field_append _ _ _ (nn hc), takeWhile_field_append _ _ _ (nn hd),
      List.takeWhile_cons, hp, if_true]
  have htext : strip_newline (strdup (a ++ '|' :: (b ++ '|' :: (c ++ '|' :: (d ++ rest)))))
      = a ++ '|' :: (b ++ '|' :: (c ++ '|' :: (d ++
          (strdup rest).takeWhile (fun x => x != '\n')))) := by
    rw [strip_newline_eq_takeWhile (strdup_no_nul _), hdup]
    have hp : ('|' != '\n') = true := by decide
    simp only [takeWhile_field_append _ _ _ (nl ha), takeWhile_field_append _ _ _ (nl hb),
      takeWhile_field_append _ _ _ (nl hc), takeWhile_field_append _ _ _ (nl hd),
      List.takeWhile_cons, hp, if_true]
  have hlen : ¬ strlen (a ++ '|' :: (b ++ '|' :: (c ++ '|' :: (d ++ rest)))) < 3 := by
    rw [strlen_eq_length_strdup, hdup]
    simp only [List.length_append, List.length_cons]
    omega
  have hnl : first_char (a ++ ['|']) ≠ '\n' := by
    cases a with
    | nil => decide
    | cons x xs => exact (ha x (List.mem_cons_self _ _)).2.1
  have hb' : strdup b = b := strdup_of_no_nul (fun x hx => (hb x hx).2.2)
  have hc' : strdup c = c := strdup_of_no_nul (fun x hx => (hc x hx).2.2)
  have hd' : strdup d = d := strdup_of_no_nul (fun x hx => (hd x hx).2.2)
  unfold parse_config_line
  rw [first_char_append_pipe]
  by_cases hh : first_char (a ++ ['|']) = '#'
  · simp [hh]
  · simp only [hh, hnl, hlen, or_self, if_false, htext]
    rw [parse_loop_step _ _ _ _ _ _ ha (by decide)]
    cases hs : store_field overflow 0 a SoundInfo.init with
    | none => rfl
    | some s0 =>
      simp only
      rw [parse_loop_step _ _ _ _ _ _ hb (by decide)]
      simp only [store_field, hb']
      rw [parse_loop_step _ _ _ _ _ _ hc (by decide)]
      simp only [store_field, hc']
      rcases hrest with h | ⟨r, h⟩
      · rw [h, List.append_nil, parse_loop_last _ _ _ _ _ hd (by decide)]
        simp [store_field, hd']
      · rw [h, parse_loop_step _ _ _ _ _ _ hd (by decide)]
        simp [store_field, hd', parse_loop]

theorem isdigit_not_special {c : Char} (h : isdigit c = true) :
    isspace c = false ∧ c ≠ '-' ∧ c ≠ '+' ∧ c ≠ '|' ∧ c ≠ '\n' ∧ c ≠ NUL ∧ c ≠ '#' := by
  have key : ∀ x : Char, isdigit x = false → c ≠ x := by
    intro x hx e
    rw [e, hx] at h
    exact Bool.noConfusion h
  have e1 := key ' ' (by decide)
  have e2 := key '\t' (by decide)
  have e3 := key '\n' (by decide)
  have e4 := key '\x0b' (by decide)
  have e5 := key '\x0c' (by decide)
  have e6 := key '\r' (by decide)
  refine ⟨?_, key _ (by decide), key _ (by decide), key _ (by decide), e3,
    key _ (by decide), key _ (by decide)⟩
  simp [isspace, e1, e2, e3, e4, e5, e6]

theorem atoi_digits_eq_foldl :
    ∀ (n : List Char) (acc : Nat), (∀ c ∈ n, isdigit c = true) →
      atoi_digits acc n = n.foldl (fun a c => 10 * a + (c.toNat - 48)) acc
  | [], acc, _ => rfl
  | c :: cs, acc, h => by
    have hc : isdigit c = true := h c (List.mem_cons_self _ _)
    simp only [atoi_digits, hc, if_true, List.foldl_cons]
    exact atoi_digits_eq_foldl cs _ (fun x hx => h x (List.mem_cons_of_mem _ hx))

theorem foldl_digits_ge :
    ∀ (n : List Char) (acc : Nat),
      acc ≤ n.foldl (fun a c => 10 * a + (c.toNat - 48)) acc
  | [], acc => Nat.le_refl _
  | c :: cs, acc => by
    simp only [List.foldl_cons]
    have := foldl_digits_ge cs (10 * acc + (c.toNat - 48))
    omega

theorem atoi_value_digits {n : List Char} (hn : n ≠ []) (hdig : ∀ c ∈ n, isdigit c = true) :
    atoi_value n = (decimal_value n : Int) := by
  cases n with
  | nil => exact absurd rfl hn
  | cons c cs =>
    have hc := isdigit_not_special (hdig c (List.mem_cons_self _ _))
    have hdw : (c :: cs).dropWhile isspace = c :: cs := by
      simp [List.dropWhile_cons, hc.1]
    unfold atoi_value
    rw [hdw]
    simp only [hc.2.1, hc.2.2.1, if_false]
    rw [atoi_digits_eq_foldl _ _ hdig]
    rfl

theorem first_char_of_value_zero {n : List Char} (hn : n ≠ [])
    (hdig : ∀ c ∈ n, isdigit c = true) (h0 : decimal_value n = 0) : first_char n = '0' := by
  cases n with
  | nil => exact absurd rfl hn
  | cons c cs =>
    have hc : isdigit c = true := hdig c (List.mem_cons_self _ _)
    have hge := foldl_digits_ge cs (10 * 0 + (c.toNat - 48))
    have hv : decimal_value (c :: cs)
        = cs.foldl (fun a c => 10 * a + (c.toNat - 48)) (10 * 0 + (c.toNat - 48)) := rfl
    rw [hv] at h0
    simp only [isdigit, Bool.and_eq_true, decide_eq_true_eq] at hc
    have h48 : c.toNat = 48 := by omega
    have : c = Char.ofNat 48 := by rw [← h48, Char.ofNat_toNat]
    simpa [first_char] using this

theorem store_field_id_digits (overflow : Int → Int) {n : List Char} (hn : n ≠ [])
    (hdig : ∀ c ∈ n, isdigit c = true) (hfit : (decimal_value n : Int) ≤ INT_MAX) :
    store_field overflow 0 n SoundInfo.init
      = some { SoundInfo.init with id := (decimal_value n : Int) } := by
  have hv := atoi_value_digits hn hdig
  have hat : atoi overflow n = (decimal_value n : Int) := by
    unfold atoi
    simp only [hv]
    have : INT_MIN ≤ (decimal_value n : Int) := by
      have : (0 : Int) ≤ (decimal_value n : Int) := Int.ofNat_nonneg _
      unfold INT_MIN; omega
    simp [this, hfit]
  simp only [store_field, hat]
  by_cases h0 : decimal_value n = 0
  · have := first_char_of_value_zero hn hdig h0
    simp [this]
  · have : ((decimal_value n : Int) = 0) = False := by
      simp only [eq_iff_iff, iff_false]; exact_mod_cast h0
    simp [this]

/-- C2: a well-formed line `n|f|k|d`, with or without one trailing newline, where
`n` is a non-empty string of decimal digits whose value fits in an `int` and
`f`, `k`, `d` hold no `'|'` and no newline (and, as C strings, no NUL), is accepted
and fills the record with the value of `n` and the texts `f`, `k`, `d`. -/
theorem parse_config_line_well_formed (overflow : Int → Int) (n f k d : List Char)
    (newline : Bool) (hn : n ≠ []) (hdig : ∀ c ∈ n, isdigit c = true)
    (hfit : (decimal_value n : Int) ≤ INT_MAX)
    (hf : field_text f) (hk : field_text k) (hd : field_text d) :
    parse_config_line overflow
        (n ++ '|' :: (f ++ '|' :: (k ++ '|' :: (d ++ if newline then ['\n'] else [])))) =
      some { id := (decimal_value n : Int), filename := some f, keybind := some k,
             description := some d } := by
  have hnt : field_text n := fun c hc =>
    let h := isdigit_not_special (hdig c hc)
    ⟨h.2.2.2.1, h.2.2.2.2.1, h.2.2.2.2.2.1⟩
  have hrest : (strdup (if newline then ['\n'] else [])).takeWhile (fun x => x != '\n') = [] ∨
      ∃ r, (strdup (if newline then ['\n'] else [])).takeWhile (fun x => x != '\n') = '|' :: r := by
    left
    cases newline <;> decide
  rw [parse_config_line_fields overflow n f k d _ hnt hf hk hd hrest]
  have hfc : first_char (n ++ ['|']) ≠ '#' := by
    cases n with
    | nil => exact absurd rfl hn
    | cons c cs => exact (isdigit_not_special (hdig c (List.mem_cons_self _ _))).2.2.2.2.2.2
  rw [if_neg hfc, store_field_id_digits overflow hn hdig hfit]

theorem parse_config_line_well_formed_witness :
    parse_config_line (fun _ => 0) "42|beep.wav||Beep\n".toList =
      some { id := 42, filename := some "beep.wav".toList, keybind := some [],
             description := some "Beep".toList } :=
  parse_config_line_well_formed (fun _ => 0) "42".toList "beep.wav".toList [] "Beep".toList true
    (by decide) (by decide) (by decide) (by unfold field_text; decide)
    (by unfold field_text; decide) (by unfold field_text; decide)

theorem atoi_digits_zero_of_not_digit :
    ∀ (r : List Char), (match r with | [] => false | x :: _ => isdigit x) = false →
      atoi_digits 0 r = 0
  | [], _ => rfl
  | x :: xs, h => by
    simp only at h
    simp [atoi_digits, h]

theorem no_number_rejected {f : List Char} (h : starts_with_number f = false) :
    atoi_value f = 0 ∧ first_char f ≠ '0' := by
  constructor
  · unfold atoi_value
    unfold starts_with_number at h
    cases hd : f.dropWhile isspace with
    | nil => rfl
    | cons c r =>
      rw [hd] at h
      simp only at h ⊢
      by_cases hm : c = '-'
      · simp only [hm, true_or, if_true] at h ⊢
        rw [atoi_digits_zero_of_not_digit r h]; rfl
      · by_cases hp : c = '+'
        · have hpm : ('+' : Char) ≠ '-' := by decide
          simp only [hp, or_true, if_true, hpm, if_false] at h ⊢
          rw [atoi_digits_zero_of_not_digit r h]; rfl
        · simp only [hm, hp, or_self, if_false] at h ⊢
          simp [atoi_digits, h]
  · intro h0
    cases f with
    | nil => exact absurd h0 (by decide)
    | cons c r =>
      have hc : c = '0' := h0
      subst hc
      have hdw : ('0' :: r).dropWhile isspace = '0' :: r := by
        rw [List.dropWhile_cons]
        have : isspace '0' = false := by decide
        simp [this]
      unfold starts_with_number at h
      rw [hdw] at h
      have hz : isdigit '0' = true := by decide
      have hm : ¬ (('0' : Char) = '-' ∨ ('0' : Char) = '+') := by decide
      simp only [hm, if_false, hz] at h
      exact Bool.noConfusion h

/-- The claim of C4 fails on a numeric prefix followed by other text: the first field `1x`
is not a decimal integer, yet the line is accepted with id 1. -/
theorem parse_config_line_accepts_leading_number :
    is_decimal_integer (first_field "1x|a.wav|F1|Beep".toList) = false ∧
      parse_config_line (fun _ => 0) "1x|a.wav|F1|Beep".toList =
        some { id := 1, filename := some "a.wav".toList, keybind := some "F1".toList,
               description := some "Beep".toList } := by
  decide

/-- C4 (amended): a line whose first field does not begin with a number, that is
whose first field after leading white space and one optional sign does not go
on with a decimal digit, is rejected, however many fields the line has. -/
theorem parse_config_line_rejects_non_numeric_id (overflow : Int → Int) (line : List Char)
    (h : starts_with_number (first_field line) = false) :
    parse_config_line overflow line = none := by
  unfold parse_config_line
  split
  · rfl
  · rw [strip_newline_eq_takeWhile (strdup_no_nul line)]
    have h0 : ∀ x ∈ (strdup line).takeWhile (fun c => c != '\n'), x ≠ NUL :=
      fun x hx => strdup_no_nul line x ((List.takeWhile_sublist _).subset hx)
    have htok := strchr_cut_eq_takeWhile '|' h0
    obtain ⟨hv, hf⟩ := no_number_rejected h
    have hat : atoi overflow (first_field line) = 0 := by
      unfold atoi
      simp only [hv]
      have : INT_MIN ≤ 0 ∧ (0 : Int) ≤ INT_MAX := by decide
      rw [if_pos this]
    have hs : store_field overflow 0 (first_field line) SoundInfo.init = none := by
      simp [store_field, hat, hf]
    simp only
    rw [parse_loop]
    simp only [htok]
    simp [first_field] at hs
    simp [hs]

theorem parse_config_line_rejects_non_numeric_id_witness :
    starts_with_number (first_field "abc|a.wav|F1|Beep".toList) = false ∧
      parse_config_line (fun _ => 0) "abc|a.wav|F1|Beep".toList = none :=
  ⟨by decide, parse_config_line_rejects_non_numeric_id (fun _ => 0) _ (by decide)⟩

/-- The claim of C5 fails on a line with five fields: it has four `'|'` before its
newline, and it is accepted, the fifth field being ignored. -/
theorem parse_config_line_accepts_five_fields :
    List.count '|' ((strdup "1|a.wav|F1|Beep|extra\n".toList).takeWhile (fun c => c != '\n')) = 4 ∧
      parse_config_line (fun _ => 0) "1|a.wav|F1|Beep|extra\n".toList =
        some { id := 1, filename := some "a.wav".toList, keybind := some "F1".toList,
               description := some "Beep".toList } := by
  decide

/-- C5 (amended): every accepted line has at least four pipe-delimited fields,
that is at least three `'|'` before its first newline; and what follows the
fourth field is ignored: a line with five or more fields is parsed as the line
made of its first four fields. -/
theorem parse_config_line_at_least_four_fields (overflow : Int → Int) :
    (∀ (line : List Char) (s : SoundInfo), parse_config_line overflow line = some s →
      3 ≤ List.count '|' ((strdup line).takeWhile (fun c => c != '\n'))) ∧
    (∀ (a b c d rest : List Char),
      field_text a → field_text b → field_text c → field_text d →
      parse_config_line overflow (a ++ '|' :: (b ++ '|' :: (c ++ '|' :: (d ++ '|' :: rest)))) =
        parse_config_line overflow (a ++ '|' :: (b ++ '|' :: (c ++ '|' :: d)))) := by
  refine ⟨fun line s h => parse_accept_pipes overflow line s h, ?_⟩
  intro a b c d rest ha hb hc hd
  have h1 := parse_config_line_fields overflow a b c d ('|' :: rest) ha hb hc hd
    (Or.inr ⟨(strdup rest).takeWhile (fun x => x != '\n'), by
      have e1 : ('|' != NUL) = true := by decide
      have e2 : ('|' != '\n') = true := by decide
      simp [strdup, List.takeWhile_cons, e1, e2]⟩)
  have h2 := parse_config_line_fields overflow a b c d [] ha hb hc hd (Or.inl rfl)
  rw [List.append_nil] at h2
  rw [h1, h2]

theorem parse_config_line_at_least_four_fields_witness :
    3 ≤ List.count '|' ((strdup "1|a|b|c|d\n".toList).takeWhile (fun c => c != '\n')) ∧
      parse_config_line (fun _ => 0) "1|a|b|c|d\n".toList =
        parse_config_line (fun _ => 0) "1|a|b|c".toList :=
  ⟨(parse_config_line_at_least_four_fields (fun _ => 0)).1 "1|a|b|c|d\n".toList
      { id := 1, filename := some ['a'], keybind := some ['b'], description := some ['c'] }
      (by decide),
   (parse_config_line_at_least_four_fields (fun _ => 0)).2 ['1'] ['a'] ['b'] ['c'] "d\n".toList
      (by unfold field_text; decide) (by unfold field_text; decide)
      (by unfold field_text; decide) (by unfold field_text; decide)⟩

/-! ## Grid sizing -/

/-- C division by 145 (truncation toward zero) in terms of the floor division. -/
theorem tdiv_145 (x : Int) :
    Int.tdiv x 145 = if 0 ≤ x then x / 145 else -((-x) / 145) := by
  split
  · rename_i h
    exact Int.tdiv_eq_ediv h (by decide)
  · rename_i h
    have hx : x = -(-x) := by omega
    have h1 : Int.tdiv (-x) 145 = (-x) / 145 := Int.tdiv_eq_ediv (by omega) (by decide)
    rw [hx, Int.neg_tdiv, h1]
    simp

theorem wrap_int_of_range {x : Int} (h1 : INT_MIN ≤ x) (h2 : x ≤ INT_MAX) : wrap_int x = x := by
  unfold INT_MIN at h1
  unfold INT_MAX at h2
  unfold wrap_int
  omega

/-- For a width whose `width - 60` does not overflow, the width-derived count is
the clamp of the mathematical quotient, rounded toward zero. -/
theorem width_columns_of_range {w : Int} (h1 : INT_MIN + 60 ≤ w) (h2 : w ≤ INT_MAX) :
    width_columns w = clamp (Int.tdiv (w - 60) 145) 1 16 := by
  unfold width_columns
  rw [wrap_int_of_range (by unfold INT_MIN at *; omega) (by unfold INT_MAX at *; omega)]

/-- C6: for a fixed sound count the column count is monotonic in the window
width, as long as `width - 60` does not overflow. -/
theorem calculate_grid_columns_mono (sound_count w1 w2 : Int)
    (hlo : INT_MIN + 60 ≤ w1) (hle : w1 ≤ w2) (hhi : w2 ≤ INT_MAX) :
    calculate_grid_columns w1 sound_count ≤ calculate_grid_columns w2 sound_count := by
  unfold INT_MIN at hlo
  unfold INT_MAX at hhi
  have e1 : wrap_int (w1 - 60) = w1 - 60 :=
    wrap_int_of_range (by unfold INT_MIN; omega) (by unfold INT_MAX; omega)
  have e2 : wrap_int (w2 - 60) = w2 - 60 :=
    wrap_int_of_range (by unfold INT_MIN; omega) (by unfold INT_MAX; omega)
  have hq : Int.tdiv (w1 - 60) 145 ≤ Int.tdiv (w2 - 60) 145 := by
    rw [tdiv_145, tdiv_145]
    split_ifs <;> omega
  have e : (140 : Int) + 5 = 145 := rfl
  simp only [calculate_grid_columns, e1, e2, e]
  generalize Int.tdiv (w1 - 60) 145 = q1 at hq ⊢
  generalize Int.tdiv (w2 - 60) 145 = q2 at hq ⊢
  split_ifs <;> omega

theorem calculate_grid_columns_mono_witness :
    calculate_grid_columns 400 7 ≤ calculate_grid_columns 1000 7 :=
  calculate_grid_columns_mono 7 400 1000 (by decide) (by decide) (by decide)

/-- C7: the column count lies between 1 and 16 for every window width and every
sound count, zero and negative values included. -/
theorem calculate_grid_columns_clamped (window_width sound_count : Int) :
    1 ≤ calculate_grid_columns window_width sound_count ∧
      calculate_grid_columns window_width sound_count ≤ 16 := by
  simp only [calculate_grid_columns]
  generalize Int.tdiv (wrap_int (window_width - 60)) (140 + 5) = q
  split_ifs <;> omega

/-- C8: with at least one sound the column count never exceeds the sound count;
it is the sound count exactly when the sound count is at most the width-derived
count `clamp((width - 60) / 145, 1, 16)`, and the width-derived count otherwise. -/
theorem calculate_grid_columns_le_sound_count (window_width sound_count : Int)
    (h : 1 ≤ sound_count) :
    calculate_grid_columns window_width sound_count ≤ sound_count ∧
    (calculate_grid_columns window_width sound_count = sound_count ↔
      sound_count ≤ width_columns window_width) ∧
    (¬ sound_count ≤ width_columns window_width →
      calculate_grid_columns window_width sound_count = width_columns window_width) := by
  simp only [calculate_grid_columns, width_columns, clamp]
  have e : (140 : Int) + 5 = 145 := rfl
  rw [e]
  generalize Int.tdiv (wrap_int (window_width - 60)) 145 = q
  split_ifs <;> omega

theorem calculate_grid_columns_le_sound_count_witness :
    calculate_grid_columns 800 3 = 3 ∧ calculate_grid_columns 800 9 = 5 ∧
      width_columns 800 = 5 := by
  have h3 := calculate_grid_columns_le_sound_count 800 3 (by decide)
  have h9 := calculate_grid_columns_le_sound_count 800 9 (by decide)
  have hw : width_columns 800 = 5 := by decide
  exact ⟨h3.2.1.2 (by rw [hw]; decide), by rw [h9.2.2 (by rw [hw]; decide), hw], hw⟩

/-! ## Key mapping -/

/-- One step through a chain of tests that ends in a result other than `none`. -/
theorem ite_ne_none_elim {c : Prop} [Decidable c] {t e : Option String} {P : Prop}
    (h : (if c then t else e) ≠ none)
    (hpos : c → t ≠ none → P) (hneg : ¬ c → e ≠ none → P) : P := by
  by_cases hc : c
  · rw [if_pos hc] at h; exact hpos hc h
  · rw [if_neg hc] at h; exact hneg hc h

/-- One step through a chain of tests that ends in the result `some tok`. -/
theorem ite_eq_some_elim {c : Prop} [Decidable c] {t e : Option String} {tok : String}
    {P : Prop} (h : (if c then t else e) = some tok)
    (hpos : c → t = some tok → P) (hneg : ¬ c → e = some tok → P) : P := by
  by_cases hc : c
  · rw [if_pos hc] at h; exact hpos hc h
  · rw [if_neg hc] at h; exact hneg hc h

set_option maxHeartbeats 400000 in
theorem supported_of_token (k : Nat) (h : gdk_key_to_string k ≠ none) : supported_key k := by
  unfold gdk_key_to_string at h
  repeat
    refine ite_ne_none_elim h (fun hk ht => ?_) (fun _ h1 => ?_) <;> clear h
    · first
        | exact absurd rfl ht
        | (subst hk; unfold supported_key; decide)
        | (rcases hk with hk | hk <;> subst hk <;> unfold supported_key <;> decide)
    have h := h1
    clear h1
  exact absurd rfl h

theorem token_of_supported (k : Nat) (h : supported_key k) : gdk_key_to_string k ≠ none := by
  unfold supported_key at h
  simp only [GDK_KEY_0, GDK_KEY_9, GDK_KEY_a, GDK_KEY_z, GDK_KEY_A, GDK_KEY_Z, GDK_KEY_KP_0,
    GDK_KEY_KP_9, GDK_KEY_F1, GDK_KEY_F12] at h
  rcases h with h | h | h | h | h | h | h | h | h | h | h | h | h
  all_goals first
    | (subst h; decide)
    | (obtain ⟨h1, h2⟩ := h; interval_cases k <;> decide)

/-- C9: `gdk_key_to_string` returns a token exactly on the supported key set,
and returns none for Escape (which is outside the set) and for every other key
value. -/
theorem gdk_key_to_string_some_iff_supported :
    (∀ k : Nat, gdk_key_to_string k ≠ none ↔ supported_key k) ∧
      gdk_key_to_string GDK_KEY_Escape = none ∧ ¬ supported_key GDK_KEY_Escape :=
  ⟨fun k => ⟨supported_of_token k, token_of_supported k⟩, by decide,
    by unfold supported_key; decide⟩

theorem token_chars_of_token (k : Nat) (tok : String) (h : gdk_key_to_string k = some tok) :
    tok ≠ "" ∧ ∀ c ∈ tok.toList, token_char c = true := by
  unfold gdk_key_to_string at h
  repeat
    refine ite_eq_some_elim h (fun _ ht => ?_) (fun _ h1 => ?_) <;> clear h
    · first
        | exact Option.noConfusion ht
        | (cases ht; decide)
    have h := h1
    clear h1
  exact Option.noConfusion h

/-- C10: the tokens are fixed ASCII strings. The key of digit `d` maps to the
one-character numeral of `d`, the lower-case and the upper-case key of a letter
both map to the one-character lower-case letter, `KP_n` maps to `"KP_n"`, `Fn`
maps to `"Fn"`, and every token is non-empty and made only of ASCII letters,
ASCII digits and `'_'`, so that it is one word of the bind command. -/
theorem gdk_key_to_string_tokens :
    digit_keys.map gdk_key_to_string = (List.range 10).map (fun d => some (toString d)) ∧
    lower_keys.map gdk_key_to_string =
      (List.range 26).map (fun i => some (String.singleton (lower_letter i))) ∧
    upper_keys.map gdk_key_to_string =
      (List.range 26).map (fun i => some (String.singleton (lower_letter i))) ∧
    keypad_keys.map gdk_key_to_string =
      (List.range 10).map (fun n => some ("KP_" ++ toString n)) ∧
    function_keys.map gdk_key_to_string =
      (List.range 12).map (fun n => some ("F" ++ toString (n + 1))) ∧
    ∀ (k : Nat) (tok : String), gdk_key_to_string k = some tok →
      tok ≠ "" ∧ ∀ c ∈ tok.toList, token_char c = true :=
  ⟨by decide, by decide, by decide, by decide, by decide, token_chars_of_token⟩

theorem gdk_key_to_string_tokens_witness :
    gdk_key_to_string GDK_KEY_KP_Multiply = some "KP_Multiply" ∧
      "KP_Multiply" ≠ "" ∧ ∀ c ∈ "KP_Multiply".toList, token_char c = true :=
  ⟨by decide, gdk_key_to_string_tokens.2.2.2.2.2 GDK_KEY_KP_Multiply "KP_Multiply" (by decide)⟩



/-! ## The key binding interaction -/

/-- C11: in a state that waits for a key, Escape cancels the pending bind: the
handler returns TRUE, leaves `waiting_for_key` false and `pending_sound_id` 0,
and executes nothing but the setup subcommand of `setup_callback` (nothing at
all when HOME is not set), so no bind command. -/
theorem on_key_press_escape_cancels (env : Env) (st : KeyState)
    (hw : st.waiting_for_key = true) :
    (on_key_press env st GDK_KEY_Escape).ret = true ∧
    (on_key_press env st GDK_KEY_Escape).state =
      { waiting_for_key := false, pending_sound_id := 0 } ∧
    (on_key_press env st GDK_KEY_Escape).commands =
      (match env.home with
       | none => []
       | some home => [snprintf 1024 (home ++ "/soundboard/soundboard.sh setup".toList)]) := by
  have hk : gdk_key_to_string GDK_KEY_Escape = none := by decide
  simp only [on_key_press, hw, hk, setup_callback]
  simp

theorem on_key_press_escape_cancels_witness :
    (on_key_press (env_with_home "/home/u".toList) ⟨true, 7⟩ GDK_KEY_Escape).ret = true ∧
    (on_key_press (env_with_home "/home/u".toList) ⟨true, 7⟩ GDK_KEY_Escape).state = ⟨false, 0⟩ ∧
    (on_key_press (env_with_home "/home/u".toList) ⟨true, 7⟩ GDK_KEY_Escape).commands =
      [snprintf 1024 ("/home/u".toList ++ "/soundboard/soundboard.sh setup".toList)] :=
  on_key_press_escape_cancels (env_with_home "/home/u".toList) ⟨true, 7⟩ rfl

/-- C12: in a state that waits for a key, a key other than Escape that has no
token is rejected without side effect: the handler returns TRUE, executes no
command and leaves `waiting_for_key` (still true) and `pending_sound_id` as
they were. -/
theorem on_key_press_unrecognized_key (env : Env) (st : KeyState) (keyval : Nat)
    (hw : st.waiting_for_key = true) (hesc : keyval ≠ GDK_KEY_Escape)
    (hk : gdk_key_to_string keyval = none) :
    on_key_press env st keyval = { ret := true, state := st, commands := [] } ∧
      (on_key_press env st keyval).state.waiting_for_key = true := by
  simp [on_key_press, hw, hesc, hk]

theorem on_key_press_unrecognized_key_witness :
    on_key_press (env_with_home "/home/u".toList) ⟨true, 7⟩ 0xff0d =
        { ret := true, state := ⟨true, 7⟩, commands := [] } ∧
      (on_key_press (env_with_home "/home/u".toList) ⟨true, 7⟩ 0xff0d).state.waiting_for_key
        = true :=
  on_key_press_unrecognized_key (env_with_home "/home/u".toList) ⟨true, 7⟩ 0xff0d rfl
    (by decide) (by decide)



theorem snprintf_length_le (size : Nat) (text : List Char) :
    (snprintf size text).length ≤ size - 1 := by
  unfold snprintf
  rw [List.length_take]
  exact Nat.min_le_left _ _

theorem snprintf_of_fits {size : Nat} {text : List Char} (h : text.length < size) :
    snprintf size text = text := by
  unfold snprintf
  exact List.take_of_length_le (by omega)

/-- The claim of C13 fails when HOME is long: with a HOME of 1023 characters the
bind path is taken, but the full bind command does not fit the 1024-byte
buffer and is not among the commands executed. -/
theorem on_key_press_long_home_truncates :
    gdk_key_to_string GDK_KEY_a = some "a" ∧
      bind_command (List.replicate 1023 'a') 7 "a" ∉
        (on_key_press (env_with_home (List.replicate 1023 'a')) ⟨true, 7⟩ GDK_KEY_a).commands := by
  refine ⟨by decide, ?_⟩
  have hl : (List.replicate 1023 'a').length = 1023 := List.length_replicate _ _
  generalize List.replicate 1023 'a' = home at hl ⊢
  intro h
  have hk : gdk_key_to_string GDK_KEY_a = some "a" := by decide
  have hc : (on_key_press (env_with_home home) ⟨true, 7⟩ GDK_KEY_a).commands =
      [snprintf 1024 (home ++ "/soundboard/soundboard.sh bind ".toList ++ fmt_d 7 ++ " ".toList
          ++ "a".toList),
       snprintf 1024 (home ++ "/soundboard/soundboard.sh setup".toList)] := by
    simp [on_key_press, env_with_home, setup_callback, hk]
  rw [hc] at h
  simp only [List.mem_cons, List.mem_singleton] at h
  have h : bind_command home 7 "a" = snprintf 1024 (home ++
      "/soundboard/soundboard.sh bind ".toList ++ fmt_d 7 ++ " ".toList ++ "a".toList) ∨
      bind_command home 7 "a" = snprintf 1024 (home ++
        "/soundboard/soundboard.sh setup".toList) := by
    rcases h with h | h | h
    · exact Or.inl h
    · exact Or.inr h
    · exact absurd h (List.not_mem_nil _)
  have hlen : 1024 ≤ (bind_command home 7 "a").length := by
    simp only [bind_command, List.length_append, List.length_cons, List.length_nil, hl]
    omega
  rcases h with h | h
  · have := snprintf_length_le 1024 (home ++
      "/soundboard/soundboard.sh bind ".toList ++ fmt_d 7 ++ " ".toList ++ "a".toList)
    rw [← h] at this
    omega
  · have := snprintf_length_le 1024 (home ++ "/soundboard/soundboard.sh setup".toList)
    rw [← h] at this
    omega

/-- C13 (amended): `on_key_press` takes the bind path exactly when
`waiting_for_key` is true, the key has a token and HOME is set. It then
executes first the text `<HOME>/soundboard/soundboard.sh bind <id> <token>`, cut
to the 1023 characters the command buffer holds (the whole text when it is
shorter than 1024 characters), and then the setup subcommand. When it waits for
a key and the key has no token or HOME is not set, it executes nothing, apart
from the setup subcommand on Escape. When `waiting_for_key` is false it returns
FALSE, executes nothing and changes no state. -/
theorem on_key_press_bind (env : Env) (st : KeyState) (keyval : Nat) :
    (st.waiting_for_key = false →
      on_key_press env st keyval = { ret := false, state := st, commands := [] }) ∧
    (st.waiting_for_key = true → ∀ (token : String) (home : List Char),
      gdk_key_to_string keyval = some token → env.home = some home →
      on_key_press env st keyval =
        { ret := true, state := { waiting_for_key := false, pending_sound_id := 0 },
          commands := [snprintf 1024 (bind_command home st.pending_sound_id token),
                       snprintf 1024 (home ++ "/soundboard/soundboard.sh setup".toList)] } ∧
      ((bind_command home st.pending_sound_id token).length < 1024 →
        snprintf 1024 (bind_command home st.pending_sound_id token) =
          bind_command home st.pending_sound_id token)) ∧
    (st.waiting_for_key = true → (gdk_key_to_string keyval = none ∨ env.home = none) →
      (on_key_press env st keyval).commands =
        if keyval = GDK_KEY_Escape then setup_callback env else []) := by
  refine ⟨?_, ?_, ?_⟩
  · intro hw
    simp [on_key_press, hw]
  · intro hw token home hk hh
    refine ⟨?_, snprintf_of_fits⟩
    simp [on_key_press, hw, hk, hh, setup_callback, bind_command, fmt_d]
  · intro hw h
    by_cases hesc : keyval = GDK_KEY_Escape
    · have hk : gdk_key_to_string GDK_KEY_Escape = none := by decide
      subst hesc
      simp [on_key_press, hw, hk]
    · rcases h with hk | hh
      · simp [on_key_press, hw, hk, hesc]
      · cases hk : gdk_key_to_string keyval with
        | none => simp [on_key_press, hw, hk, hesc]
        | some token => simp [on_key_press, hw, hk, hesc, hh]

theorem on_key_press_bind_witness :
    on_key_press (env_with_home "/home/u".toList) ⟨false, 7⟩ GDK_KEY_a =
        { ret := false, state := ⟨false, 7⟩, commands := [] } ∧
    (on_key_press (env_with_home "/home/u".toList) ⟨true, 7⟩ GDK_KEY_a).commands =
        ["/home/u/soundboard/soundboard.sh bind 7 a".toList,
         "/home/u/soundboard/soundboard.sh setup".toList] ∧
    (on_key_press env_without_home ⟨true, 7⟩ GDK_KEY_a).commands = [] := by
  have h1 := (on_key_press_bind (env_with_home "/home/u".toList) ⟨false, 7⟩ GDK_KEY_a).1 rfl
  have h2 := ((on_key_press_bind (env_with_home "/home/u".toList) ⟨true, 7⟩ GDK_KEY_a).2.1 rfl
    "a" "/home/u".toList (by decide) rfl).1
  have h3 := (on_key_press_bind env_without_home ⟨true, 7⟩ GDK_KEY_a).2.2 rfl (Or.inr rfl)
  refine ⟨h1, ?_, ?_⟩
  · rw [h2]; decide
  · rw [h3]; decide



/-! ## Missing HOME -/

/-- C14: when HOME is not set no handler executes a subprocess: not
`setup_callback`, `scan_callback`, `stop_callback`, `shutdown_callback`,
`play_sound_callback`, `on_right_click`, nor `on_key_press` on any path; and
`play_sound_callback` executes none either when the script file is missing or
is not executable. -/
theorem no_subprocess_without_home (overflow : Int → Int) (env : Env) (app : AppData)
    (st : KeyState) (keyval : Nat) (press : Bool) (button : Nat) (sound_id : Int) :
    (env.home = none →
      setup_callback env = [] ∧ (scan_callback overflow env app).1 = [] ∧
      stop_callback env = [] ∧ shutdown_callback env = [] ∧
      play_sound_callback env sound_id = [] ∧
      (on_right_click env press button sound_id).2 = [] ∧
      (on_key_press env st keyval).commands = []) ∧
    (∀ home : List Char, env.home = some home →
      (env.access_f (snprintf 1024 (home ++ "/soundboard/soundboard.sh".toList)) = false ∨
       env.access_x (snprintf 1024 (home ++ "/soundboard/soundboard.sh".toList)) = false) →
      play_sound_callback env sound_id = []) := by
  constructor
  · intro hh
    refine ⟨by simp [setup_callback, hh], by simp [scan_callback, hh],
      by simp [stop_callback, hh], by simp [shutdown_callback, hh],
      by simp [play_sound_callback, hh], by simp [on_right_click, hh], ?_⟩
    unfold on_key_press
    cases hw : st.waiting_for_key with
    | false => simp
    | true =>
      cases hk : gdk_key_to_string keyval with
      | none =>
        by_cases hesc : keyval = GDK_KEY_Escape <;> simp [hesc, setup_callback, hh]
      | some token => simp [hh]
  · intro home hh hacc
    unfold play_sound_callback
    simp only [hh]
    rcases hacc with h | h
    · rw [h]; rfl
    · rw [h]
      split <;> rfl

theorem no_subprocess_without_home_witness :
    (on_key_press env_without_home ⟨true, 7⟩ GDK_KEY_a).commands = [] ∧
    (scan_callback (fun _ => 0) env_without_home ⟨none, 0, 0⟩).1 = [] ∧
    play_sound_callback
      { env_with_home "/home/u".toList with access_x := fun _ => false } 7 = [] := by
  have h := no_subprocess_without_home (fun _ => 0) env_without_home ⟨none, 0, 0⟩
    ⟨true, 7⟩ GDK_KEY_a true 3 7
  have h2 := no_subprocess_without_home (fun _ => 0)
    { env_with_home "/home/u".toList with access_x := fun _ => false } ⟨none, 0, 0⟩
    ⟨true, 7⟩ GDK_KEY_a true 3 7
  exact ⟨(h.1 rfl).2.2.2.2.2.2, (h.1 rfl).2.1, h2.2 "/home/u".toList rfl (Or.inr rfl)⟩

/-! ## Stale pending sound id -/

/-- C16 at its failing input: with HOME not set, a middle click on the sound 5
followed by the key `a` ends the bind interaction with `waiting_for_key` false
and `pending_sound_id` still 5. -/
theorem run_events_stale_pending_sound_id :
    run_events env_without_home [Event.middle_click true 2 5, Event.key_press GDK_KEY_a] =
      { waiting_for_key := false, pending_sound_id := 5 } := by
  decide

/-- When HOME is set the pending sound id is 0 whenever no key is awaited, in
every state reached from the initial one. -/
theorem pending_zero_when_home_set (env : Env) (home : List Char) (hh : env.home = some home) :
    ∀ (events : List Event) (st : KeyState),
      (st.waiting_for_key = false → st.pending_sound_id = 0) →
      (events.foldl (Event.apply env) st).waiting_for_key = false →
      (events.foldl (Event.apply env) st).pending_sound_id = 0
  | [], st, hst, h => hst h
  | e :: es, st, hst, h => by
    rw [List.foldl_cons] at h ⊢
    refine pending_zero_when_home_set env home hh es _ ?_ h
    cases e with
    | middle_click press button sound_id =>
      simp only [Event.apply, on_middle_click]
      split
      · simp
      · exact hst
    | key_press keyval =>
      simp only [Event.apply, on_key_press]
      cases hw : st.waiting_for_key with
      | false => simpa [hw] using hst
      | true =>
        cases hk : gdk_key_to_string keyval with
        | none =>
          by_cases hesc : keyval = GDK_KEY_Escape <;> simp [hesc, hw]
        | some token => simp [hh]



/-! ## Dependency check -/

/-- C15: whatever `command_exists` answers for pactl, paplay, xbindkeys and bash,
`check_dependencies` returns 1 exactly when all four commands exist; otherwise
it returns 0 and `main` returns the exit status 1 without creating the GUI. -/
theorem check_dependencies_all_present (env : Env) :
    ((check_dependencies env).1 = 1 ↔
      (command_exists env "pactl" = true ∧ command_exists env "paplay" = true ∧
       command_exists env "xbindkeys" = true ∧ command_exists env "bash" = true)) ∧
    (¬ (command_exists env "pactl" = true ∧ command_exists env "paplay" = true ∧
        command_exists env "xbindkeys" = true ∧ command_exists env "bash" = true) →
      (check_dependencies env).1 = 0 ∧
      main env = { status := 1, gui_created := false }) := by
  cases h1 : command_exists env "pactl" <;> cases h2 : command_exists env "paplay" <;>
    cases h3 : command_exists env "xbindkeys" <;> cases h4 : command_exists env "bash" <;>
    simp [check_dependencies, check_dependencies_loop, dependencies, main,
      initialize_with_dependency_check, h1, h2, h3, h4]

theorem check_dependencies_all_present_witness :
    (check_dependencies
        { env_without_home with
          system := fun c => if c = "command -v bash >/dev/null 2>&1".toList then 1 else 0 }).1 = 0 ∧
      main
        { env_without_home with
          system := fun c => if c = "command -v bash >/dev/null 2>&1".toList then 1 else 0 } =
        { status := 1, gui_created := false } :=
  (check_dependencies_all_present
      { env_without_home with
        system := fun c => if c = "command -v bash >/dev/null 2>&1".toList then 1 else 0 }).2
    (by decide)

/-! ## Grid placement -/

theorem calculate_grid_columns_pos (window_width sound_count : Int) :
    1 ≤ calculate_grid_columns window_width sound_count := by
  simp only [calculate_grid_columns]
  generalize Int.tdiv (wrap_int (window_width - 60)) (140 + 5) = q
  split_ifs <;> omega

theorem grid_position_cell (grid_columns i : Int) (hgc : 1 ≤ grid_columns) (hi : 0 ≤ i) :
    0 ≤ (grid_position grid_columns i).2 ∧ (grid_position grid_columns i).2 < grid_columns ∧
      (grid_position grid_columns i).1 * grid_columns + (grid_position grid_columns i).2 = i := by
  have h0 : (0 : Int) ≤ grid_columns := by omega
  simp only [grid_position, Int.tdiv_eq_ediv hi h0, Int.tmod_eq_emod hi h0]
  refine ⟨Int.emod_nonneg _ (by omega), Int.emod_lt_of_pos _ (by omega), ?_⟩
  rw [Int.mul_comm]
  exact Int.ediv_add_emod i grid_columns

theorem grid_position_inj (grid_columns i j : Int) (hgc : 1 ≤ grid_columns) (hi : 0 ≤ i)
    (hj : 0 ≤ j) (h : grid_position grid_columns i = grid_position grid_columns j) : i = j := by
  have h1 := (grid_position_cell grid_columns i hgc hi).2.2
  have h2 := (grid_position_cell grid_columns j hgc hj).2.2
  rw [h] at h1
  exact h1.symm.trans h2

/-- C18: with at least one sound the column count is at least 1, so the
division and the modulo by it are defined; every button index `i` below the
sound count gets a column from 0 up to the column count (excluded) and a row
with `row * grid_columns + col = i`; hence buttons with different indices get
different cells, and the cells `create_button_grid` attaches the buttons to are
pairwise distinct. -/
theorem grid_placement_safe (window_width sound_count : Int) (h : 1 ≤ sound_count) :
    1 ≤ calculate_grid_columns window_width sound_count ∧
    (∀ i : Int, 0 ≤ i → i < sound_count →
      0 ≤ (grid_position (calculate_grid_columns window_width sound_count) i).2 ∧
      (grid_position (calculate_grid_columns window_width sound_count) i).2 <
        calculate_grid_columns window_width sound_count ∧
      (grid_position (calculate_grid_columns window_width sound_count) i).1 *
          calculate_grid_columns window_width sound_count +
        (grid_position (calculate_grid_columns window_width sound_count) i).2 = i) ∧
    (∀ i j : Int, 0 ≤ i → i < sound_count → 0 ≤ j → j < sound_count →
      grid_position (calculate_grid_columns window_width sound_count) i =
        grid_position (calculate_grid_columns window_width sound_count) j → i = j) ∧
    (∀ (env : Env) (app : AppData), env.window_width = window_width →
      (app.sound_count : Int) = sound_count → (create_button_grid env app).2.Nodup) := by
  have hgc := calculate_grid_columns_pos window_width sound_count
  refine ⟨hgc, fun i hi _ => grid_position_cell _ i hgc hi,
    fun i j hi _ hj _ hij => grid_position_inj _ i j hgc hi hj hij, ?_⟩
  intro env app hw hsc
  have hne : app.sound_count ≠ 0 := by
    intro h0
    rw [h0] at hsc
    omega
  simp only [create_button_grid, hne, if_false, hw, hsc]
  apply List.Nodup.map_on _ (List.nodup_range _)
  intro a _ b _ hab
  simp only [Prod.mk.injEq] at hab
  have : grid_position (calculate_grid_columns window_width sound_count) (a : Int) =
      grid_position (calculate_grid_columns window_width sound_count) (b : Int) :=
    Prod.ext hab.2 hab.1
  have := grid_position_inj _ _ _ hgc (Int.ofNat_nonneg a) (Int.ofNat_nonneg b) this
  exact_mod_cast this

theorem grid_placement_safe_witness :
    1 ≤ calculate_grid_columns 400 7 ∧ grid_position (calculate_grid_columns 400 7) 5 = (2, 1) ∧
      (create_button_grid { env_without_home with window_width := 400 } ⟨none, 7, 0⟩).2.Nodup := by
  have h := grid_placement_safe 400 7 (by decide)
  exact ⟨h.1, by decide,
    h.2.2.2 { env_without_home with window_width := 400 } ⟨none, 7, 0⟩ rfl rfl⟩



/-! ## The two-pass loader -/

theorem count_valid_lines_eq (overflow : Int → Int) :
    ∀ (lines : List (List Char)) (count : Nat),
      count_valid_lines overflow lines count =
        count + (lines.filterMap (parse_config_line overflow)).length
  | [], count => by simp [count_valid_lines]
  | line :: rest, count => by
    unfold count_valid_lines
    cases hp : parse_config_line overflow line with
    | none =>
      simp only [List.filterMap_cons, hp]
      exact count_valid_lines_eq overflow rest count
    | some s =>
      simp only [List.filterMap_cons, hp, List.length_cons]
      rw [count_valid_lines_eq overflow rest (count + 1)]
      omega

theorem set_after_filled (filled : List SoundInfo) (x s : SoundInfo) (tl : List SoundInfo) :
    (filled ++ x :: tl).set filled.length s = filled ++ s :: tl := by
  induction filled with
  | nil => rfl
  | cons a as ih => simp [List.set, ih]

/-- The second pass on an array whose first slots are `filled` and whose `free`
other slots are still zeroed: when the lines left hold at most `free` accepted
lines, their records fill the next slots in order. -/
theorem load_lines_fill (overflow : Int → Int) :
    ∀ (lines : List (List Char)) (filled : List SoundInfo) (free : Nat),
      (lines.filterMap (parse_config_line overflow)).length ≤ free →
      load_lines overflow (filled.length + free) lines
          (filled ++ List.replicate free SoundInfo.init) filled.length =
        (filled ++ lines.filterMap (parse_config_line overflow) ++
            List.replicate (free - (lines.filterMap (parse_config_line overflow)).length)
              SoundInfo.init,
          filled.length + (lines.filterMap (parse_config_line overflow)).length)
  | [], filled, free, _ => by simp [load_lines]
  | line :: rest, filled, free, h => by
    unfold load_lines
    cases hp : parse_config_line overflow line with
    | none =>
      simp only [List.filterMap_cons, hp] at h ⊢
      have ih := load_lines_fill overflow rest filled free h
      by_cases hlt : filled.length < filled.length + free
      · simp only [hlt, if_true]
        exact ih
      · have hfree : free = 0 := by omega
        subst hfree
        have hnil : List.filterMap (parse_config_line overflow) rest = [] :=
          List.eq_nil_of_length_eq_zero (by omega)
        simp [hlt, hnil]
    | some s =>
      simp only [List.filterMap_cons, hp, List.length_cons] at h ⊢
      obtain ⟨k, rfl⟩ : ∃ k, free = k + 1 := ⟨free - 1, by omega⟩
      have hlt : filled.length < filled.length + (k + 1) := by omega
      simp only [hlt, if_true, List.replicate_succ, set_after_filled]
      have ih := load_lines_fill overflow rest (filled ++ [s]) k (by omega)
      have e1 : (filled ++ [s]).length + k = filled.length + (k + 1) := by
        simp only [List.length_append, List.length_cons, List.length_nil]; omega
      have e2 : (filled ++ [s]).length = filled.length + 1 := by simp
      have e3 : filled ++ [s] ++ List.replicate k SoundInfo.init
          = filled ++ s :: List.replicate k SoundInfo.init := by simp
      rw [e1, e2, e3] at ih
      rw [ih]
      have e4 : k + 1 - ((List.filterMap (parse_config_line overflow) rest).length + 1)
          = k - (List.filterMap (parse_config_line overflow) rest).length := by omega
      simp only [e4, List.append_assoc, List.singleton_append, Prod.mk.injEq, true_and]
      omega

/-- C17: the two-pass loader agrees with a single filter. For a configuration
file that opens, given by the lines read from it, `load_sounds_from_config`
returns 0 and leaves `app_data` as it was when `parse_config_line` accepts no
line; otherwise it returns 1, `sound_count` is the number of accepted lines and
the loaded records are the parse results of the accepted lines in file order. -/
theorem load_sounds_from_config_filter (overflow : Int → Int) (env : Env) (app : AppData)
    (home : List Char) (lines : List (List Char))
    (hh : env.home = some home) (hf : env.config_file = some lines) :
    load_sounds_from_config overflow env app =
      if lines.filterMap (parse_config_line overflow) = [] then (0, app)
      else (1, { app with
                 sounds := some (lines.filterMap (parse_config_line overflow)),
                 sound_count := (lines.filterMap (parse_config_line overflow)).length }) := by
  unfold load_sounds_from_config
  simp only [hh, hf, count_valid_lines_eq, Nat.zero_add]
  by_cases hnil : lines.filterMap (parse_config_line overflow) = []
  · simp [hnil]
  · have hlen : (lines.filterMap (parse_config_line overflow)).length ≠ 0 :=
      fun h => hnil (List.eq_nil_of_length_eq_zero h)
    have h := load_lines_fill overflow lines []
      (lines.filterMap (parse_config_line overflow)).length (Nat.le_refl _)
    simp only [List.length_nil, Nat.zero_add, List.nil_append, Nat.sub_self,
      List.replicate_zero, List.append_nil] at h
    simp only [hlen, hnil, if_false, h]

theorem load_sounds_from_config_filter_witness :
    load_sounds_from_config (fun _ => 0)
        { env_with_home "/home/u".toList with
          config_file := some ["# sounds\n".toList, "1|a.wav|F1|Beep\n".toList, "x\n".toList,
            "2|b.wav||Boom".toList] }
        ⟨none, 0, 0⟩ =
      (1, ⟨some [⟨1, some "a.wav".toList, some "F1".toList, some "Beep".toList⟩,
                 ⟨2, some "b.wav".toList, some [], some "Boom".toList⟩], 2, 0⟩) := by
  rw [load_sounds_from_config_filter (fun _ => 0) _ ⟨none, 0, 0⟩ "/home/u".toList
    ["# sounds\n".toList, "1|a.wav|F1|Beep\n".toList, "x\n".toList, "2|b.wav||Boom".toList]
    rfl rfl]
  decide

end Soundboard
